import Mathlib

/-!
Verification of the `rc_borrow_mut` crate: a capability that mutably borrows
the contents of an `Rc<T>` when it is the sole strong reference, by temporarily
zeroing the strong count in the `RcBox` control block.

The shallow embedding flattens the `Rc<T>` pointer together with the control
block it points at into one record `RcState`: the fields `strong`, `weak` and
`value` mirror `hack::RcBox` (`strong: Cell<usize>`, `_weak: Cell<usize>`,
`_value: T`), and `ptr` is the pointee address that `Rc::as_ptr` returns.
Debug assertions in the source are tracked as explicit booleans.
-/

namespace RcBorrowMut

/-- Flattened state of an `Rc<T>` and its control block. `strong`, `weak`,
`value` are the fields of `hack::RcBox`; `ptr` is the pointee address returned
by `Rc::as_ptr`. -/
structure RcState (T : Type) where
  strong : Nat
  weak : Nat
  ptr : Nat
  value : T
deriving DecidableEq

/-- The single reportable error of the crate, `struct OtherStrongReferencesExist`. -/
inductive BorrowError where
  | otherStrongReferencesExist
deriving DecidableEq

/-- Outcome of `try_borrow_mut`: the returned `Result` (where `Except.ok ()`
stands for a returned `BorrowRefMut` handle), the state afterwards, and whether
the `debug_assert` checks on the way held. -/
structure TryOutcome (T : Type) where
  res : Except BorrowError Unit
  state : RcState T
  assertsHold : Bool

/-- Embedding of `<Rc<T> as RcBorrowMut<T>>::try_borrow_mut`:
`debug_assert_ne!(Rc::strong_count(me), 0)`; if the strong count exceeds 1,
return `Err(OtherStrongReferencesExist)`; otherwise update the control block
strong count with `x - 1` under `debug_assert_eq!(x, 1)` and return a handle. -/
def try_borrow_mut {T : Type} (s : RcState T) : TryOutcome T :=
  let a1 := decide (s.strong ≠ 0)
  if s.strong > 1 then
    { res := Except.error BorrowError.otherStrongReferencesExist
      state := s
      assertsHold := a1 }
  else
    { res := Except.ok ()
      state := { s with strong := s.strong - 1 }
      assertsHold := a1 && decide (s.strong = 1) }

/-- Embedding of `RcBorrowMut::borrow_mut`, which is
`Self::try_borrow_mut(me).unwrap()`: `none` models the panic on `Err`. -/
def borrow_mut {T : Type} (s : RcState T) : Option (RcState T) :=
  match (try_borrow_mut s).res with
  | Except.ok _ => some (try_borrow_mut s).state
  | Except.error _ => none

/-- Embedding of `Rc::as_ptr(&self.inner)`: the address of the pointee. -/
def rcAsPtr {T : Type} (s : RcState T) : Nat := s.ptr

/-- Address the immutable dereference of `BorrowRefMut` resolves through:
`Deref::deref` computes `Rc::as_ptr(&self.inner)` and returns `&*raw`. -/
def derefAddr {T : Type} (s : RcState T) : Nat := rcAsPtr s

/-- Address the mutable dereference of `BorrowRefMut` resolves through:
`DerefMut::deref_mut` computes `Rc::as_ptr(&self.inner)` and returns
`&mut *(raw as *mut T)`. -/
def derefMutAddr {T : Type} (s : RcState T) : Nat := rcAsPtr s

/-- The value read through the handle's dereference: the pointee stored at
`rcAsPtr`, which is the control block's `_value` field. -/
def derefValue {T : Type} (s : RcState T) : T := s.value

/-- A write through the handle's mutable dereference: stores `v` into the
pointee in place. Only the `value` field changes. -/
def writeThroughHandle {T : Type} (s : RcState T) (v : T) : RcState T :=
  { s with value := v }

/-- Outcome of dropping the handle: the state afterwards and whether the
`debug_assert_eq!(x, 0)` inside the strong-count update held. -/
structure DropOutcome (T : Type) where
  state : RcState T
  assertsHold : Bool

/-- Embedding of `Drop for BorrowRefMut`: recover the `RcBox` from
`Rc::as_ptr` and update its strong count with `x + 1` under
`debug_assert_eq!(x, 0)`. -/
def handleDrop {T : Type} (s : RcState T) : DropOutcome T :=
  { state := { s with strong := s.strong + 1 }
    assertsHold := decide (s.strong = 0) }

/-- Modelled from the spec: the weak-reference upgrade operation of the
underlying shared-ownership pointer is an external collaborator (Rust's
`std::rc::Weak::upgrade`, not part of this crate). Per the spec it must
consult `strong` and fail whenever `strong == 0`; on success it yields the
current pointee value. -/
def weakUpgrade {T : Type} (s : RcState T) : Option T :=
  if s.strong = 0 then none else some s.value

/-- Debug formatting of the handle, `impl Debug for BorrowRefMut`:
`(**self).fmt(f)`, i.e. formatting the dereferenced pointee with the pointee
type's own Debug implementation `dbg`. -/
def handleFmtDebug {T : Type} (dbg : T → String) (s : RcState T) : String :=
  dbg (derefValue s)

/-- Display formatting of the handle, `impl Display for BorrowRefMut`:
`(**self).fmt(f)` with the pointee type's own Display implementation `disp`. -/
def handleFmtDisplay {T : Type} (disp : T → String) (s : RcState T) : String :=
  disp (derefValue s)

/-! Control-block address recovery (`mod hack`), on a 64-bit target. -/

/-- Bytes in a `usize` on the 64-bit target. -/
def usizeSize : Nat := 8

/-- Size of `Layout::new::<RcBox<()>>()`: the `repr(C)` header of two
`Cell<usize>` counts followed by a zero-sized payload. -/
def rcBoxHeaderSize : Nat := 2 * usizeSize

/-- Embedding of `core::alloc::Layout::padding_needed_for` (an external
standard-library routine) by its documented semantics for the power-of-two
alignments Rust produces: the padding that rounds `len` up to the next
multiple of `align`. -/
def padding_needed_for (len align : Nat) : Nat :=
  (len + align - 1) / align * align - len

/-- Embedding of `hack::data_offset_align`:
`layout.size() + layout.padding_needed_for(align)` for the `RcBox<()>`
layout. -/
def data_offset_align (align : Nat) : Nat :=
  rcBoxHeaderSize + padding_needed_for rcBoxHeaderSize align

/-- Embedding of `hack::data_offset`: the alignment is queried dynamically by
`align_of_val_raw(ptr)`, so it is a parameter here. -/
def data_offset (align : Nat) : Nat := data_offset_align align

/-- Embedding of `hack::raw_to_rc_box`: `ptr.byte_sub(offset)`. -/
def raw_to_rc_box (ptr align : Nat) : Nat := ptr - data_offset align

/-- Spec-side padding, following the spec words only: the least padding after
the fixed header such that the pointee's alignment requirement is satisfied,
i.e. the least `p` with `align ∣ rcBoxHeaderSize + p`. -/
def specPadding (align : Nat) : Nat :=
  (align - rcBoxHeaderSize % align) % align

/-- Spec-side address recovery, following the spec words only: subtract from
the pointee address the fixed header size plus the padding needed to satisfy
the pointee's dynamically-queried alignment. -/
def locate_control_block (ptr align : Nat) : Nat :=
  ptr - (rcBoxHeaderSize + specPadding align)

/-! Helper lemmas. -/

theorem foldl_write_strong {T : Type} (vs : List T) (s : RcState T) :
    (vs.foldl writeThroughHandle s).strong = s.strong := by
  induction vs generalizing s with
  | nil => rfl
  | cons v vs ih => simpa [writeThroughHandle] using ih { s with value := v }

theorem roundUp_eq (len a : Nat) (h : 0 < a) :
    (len + a - 1) / a * a = len + (a - len % a) % a := by
  obtain ⟨q, r, hr, hlen⟩ : ∃ q r, r < a ∧ len = a * q + r :=
    ⟨len / a, len % a, Nat.mod_lt _ h, (Nat.div_add_mod len a).symm⟩
  subst hlen
  rcases Nat.eq_zero_or_pos r with hr0 | hrpos
  · subst hr0
    have h1 : a * q + 0 + a - 1 = a * q + (a - 1) := by omega
    rw [h1, Nat.mul_add_div h, Nat.div_eq_of_lt (by omega)]
    simp [Nat.mul_mod_right, Nat.mod_self, Nat.mul_comm]
  · have h1 : a * q + r + a - 1 = a * (q + 1) + (r - 1) := by ring_nf; omega
    rw [h1, Nat.mul_add_div h, Nat.div_eq_of_lt (by omega)]
    have h2 : (a * q + r) % a = r := by
      rw [Nat.mul_add_mod, Nat.mod_eq_of_lt hr]
    rw [h2, Nat.mod_eq_of_lt (by omega)]
    ring_nf
    omega

theorem padding_agreement (a : Nat) (h : 0 < a) :
    padding_needed_for rcBoxHeaderSize a = specPadding a := by
  have hle : rcBoxHeaderSize ≤ (rcBoxHeaderSize + a - 1) / a * a := by
    have := roundUp_eq rcBoxHeaderSize a h
    omega
  unfold padding_needed_for specPadding
  have := roundUp_eq rcBoxHeaderSize a h
  omega

theorem try_borrow_mut_state_eq {T : Type} (s : RcState T) :
    (try_borrow_mut s).state =
      if s.strong > 1 then s else { s with strong := s.strong - 1 } := by
  unfold try_borrow_mut
  split <;> rfl

theorem try_borrow_mut_res_eq {T : Type} (s : RcState T) :
    (try_borrow_mut s).res =
      if s.strong > 1 then Except.error BorrowError.otherStrongReferencesExist
      else Except.ok () := by
  unfold try_borrow_mut
  split <;> rfl

/-! Claim theorems. -/

/-- C1: If the control block's strong count is exactly 1, `try_borrow_mut`
succeeds (returns `Ok`), and the returned handle, dereferenced immutably or
mutably, resolves through the same pointee address the `Rc` holds and yields
the original pointee value. -/
theorem try_borrow_mut_sole_ownership {T : Type} (s : RcState T)
    (h : s.strong = 1) :
    (try_borrow_mut s).res = Except.ok () ∧
    derefAddr (try_borrow_mut s).state = rcAsPtr s ∧
    derefMutAddr (try_borrow_mut s).state = rcAsPtr s ∧
    derefValue (try_borrow_mut s).state = s.value := by
  rw [try_borrow_mut_res_eq, try_borrow_mut_state_eq]
  simp [h, derefAddr, derefMutAddr, derefValue, rcAsPtr]

theorem try_borrow_mut_sole_ownership_witness :
    (RcState.mk 1 1 64 (5 : Nat)).strong = 1 ∧
    ((try_borrow_mut (RcState.mk 1 1 64 (5 : Nat))).res = Except.ok () ∧
     derefAddr (try_borrow_mut (RcState.mk 1 1 64 (5 : Nat))).state =
       rcAsPtr (RcState.mk 1 1 64 (5 : Nat)) ∧
     derefMutAddr (try_borrow_mut (RcState.mk 1 1 64 (5 : Nat))).state =
       rcAsPtr (RcState.mk 1 1 64 (5 : Nat)) ∧
     derefValue (try_borrow_mut (RcState.mk 1 1 64 (5 : Nat))).state =
       (RcState.mk 1 1 64 (5 : Nat)).value) :=
  ⟨rfl, try_borrow_mut_sole_ownership _ rfl⟩

/-- C2: After a successful `try_borrow_mut` the strong count is 0, it stays 0
under any sequence of mutations through the handle, and a weak upgrade
attempted while the handle is alive fails. -/
theorem weak_upgrade_suppression {T : Type} (s : RcState T)
    (h : s.strong = 1) (vs : List T) :
    (try_borrow_mut s).state.strong = 0 ∧
    (vs.foldl writeThroughHandle (try_borrow_mut s).state).strong = 0 ∧
    weakUpgrade (vs.foldl writeThroughHandle (try_borrow_mut s).state) = none := by
  have h0 : (try_borrow_mut s).state.strong = 0 := by
    rw [try_borrow_mut_state_eq]
    simp [h]
  have h1 : (vs.foldl writeThroughHandle (try_borrow_mut s).state).strong = 0 := by
    rw [foldl_write_strong]
    exact h0
  exact ⟨h0, h1, by simp [weakUpgrade, h1]⟩

theorem weak_upgrade_suppression_witness :
    (RcState.mk 1 1 64 (0 : Nat)).strong = 1 ∧
    ((try_borrow_mut (RcState.mk 1 1 64 (0 : Nat))).state.strong = 0 ∧
     (([7, 9] : List Nat).foldl writeThroughHandle
        (try_borrow_mut (RcState.mk 1 1 64 (0 : Nat))).state).strong = 0 ∧
     weakUpgrade (([7, 9] : List Nat).foldl writeThroughHandle
        (try_borrow_mut (RcState.mk 1 1 64 (0 : Nat))).state) = none) :=
  ⟨rfl, weak_upgrade_suppression _ rfl [7, 9]⟩

/-- C3: Dropping the handle after a successful `try_borrow_mut` and any
sequence of mutations passes the release-time zero-count assertion, restores
the strong count to 1, and a weak upgrade afterwards succeeds with the mutated
value. -/
theorem release_restores_upgrade {T : Type} (s : RcState T)
    (h : s.strong = 1) (vs : List T) :
    (handleDrop (vs.foldl writeThroughHandle (try_borrow_mut s).state)).assertsHold = true ∧
    (handleDrop (vs.foldl writeThroughHandle (try_borrow_mut s).state)).state.strong = 1 ∧
    weakUpgrade (handleDrop (vs.foldl writeThroughHandle (try_borrow_mut s).state)).state =
      some (vs.foldl writeThroughHandle (try_borrow_mut s).state).value := by
  have h0 : (vs.foldl writeThroughHandle (try_borrow_mut s).state).strong = 0 := by
    rw [foldl_write_strong, try_borrow_mut_state_eq]
    simp [h]
  refine ⟨by simp [handleDrop, h0], by simp [handleDrop, h0], ?_⟩
  simp [handleDrop, weakUpgrade, h0]

theorem release_restores_upgrade_witness :
    (RcState.mk 1 1 64 (0 : Nat)).strong = 1 ∧
    ((handleDrop (([1, 2] : List Nat).foldl writeThroughHandle
        (try_borrow_mut (RcState.mk 1 1 64 (0 : Nat))).state)).assertsHold = true ∧
     (handleDrop (([1, 2] : List Nat).foldl writeThroughHandle
        (try_borrow_mut (RcState.mk 1 1 64 (0 : Nat))).state)).state.strong = 1 ∧
     weakUpgrade (handleDrop (([1, 2] : List Nat).foldl writeThroughHandle
        (try_borrow_mut (RcState.mk 1 1 64 (0 : Nat))).state)).state =
       some (([1, 2] : List Nat).foldl writeThroughHandle
        (try_borrow_mut (RcState.mk 1 1 64 (0 : Nat))).state).value) :=
  ⟨rfl, release_restores_upgrade _ rfl [1, 2]⟩

/-- C4: If the strong count is 2 or more, `try_borrow_mut` returns the error
`OtherStrongReferencesExist` and has no side effects: the state is unchanged,
the strong count is still at least 2, and dereferencing still yields the
original value. -/
theorem try_borrow_mut_shared_failure {T : Type} (s : RcState T)
    (h : 2 ≤ s.strong) :
    (try_borrow_mut s).res = Except.error BorrowError.otherStrongReferencesExist ∧
    (try_borrow_mut s).state = s ∧
    2 ≤ (try_borrow_mut s).state.strong ∧
    derefValue (try_borrow_mut s).state = s.value := by
  have h1 : s.strong > 1 := h
  rw [try_borrow_mut_res_eq, try_borrow_mut_state_eq]
  simp [h1, derefValue]
  exact h

theorem try_borrow_mut_shared_failure_witness :
    2 ≤ (RcState.mk 2 0 64 (5 : Nat)).strong ∧
    ((try_borrow_mut (RcState.mk 2 0 64 (5 : Nat))).res =
       Except.error BorrowError.otherStrongReferencesExist ∧
     (try_borrow_mut (RcState.mk 2 0 64 (5 : Nat))).state = RcState.mk 2 0 64 (5 : Nat) ∧
     2 ≤ (try_borrow_mut (RcState.mk 2 0 64 (5 : Nat))).state.strong ∧
     derefValue (try_borrow_mut (RcState.mk 2 0 64 (5 : Nat))).state =
       (RcState.mk 2 0 64 (5 : Nat)).value) :=
  ⟨by decide, try_borrow_mut_shared_failure _ (by decide)⟩

/-- C5: The control-block address recovery computes the offset as the fixed
two-count header size plus the padding needed to satisfy the dynamically
queried alignment (the least padding making the offset a multiple of the
alignment), and returns the pointee address minus that offset. -/
theorem raw_to_rc_box_spec (ptr align : Nat) (h : 0 < align) :
    raw_to_rc_box ptr align = locate_control_block ptr align ∧
    align ∣ (rcBoxHeaderSize + specPadding align) ∧
    specPadding align < align ∧
    raw_to_rc_box ptr align = ptr - data_offset_align align := by
  refine ⟨?_, ?_, Nat.mod_lt _ h, rfl⟩
  · unfold raw_to_rc_box data_offset data_offset_align locate_control_block
    rw [padding_agreement align h]
  · have := roundUp_eq rcBoxHeaderSize align h
    unfold specPadding
    have hd : align ∣ (rcBoxHeaderSize + align - 1) / align * align :=
      Dvd.intro _ (Nat.mul_comm _ _)
    rw [← this]
    exact hd

theorem raw_to_rc_box_spec_witness :
    0 < 32 ∧
    (raw_to_rc_box 4096 32 = locate_control_block 4096 32 ∧
     32 ∣ (rcBoxHeaderSize + specPadding 32) ∧
     specPadding 32 < 32 ∧
     raw_to_rc_box 4096 32 = 4096 - data_offset_align 32) :=
  ⟨by decide, raw_to_rc_box_spec 4096 32 (by decide)⟩

/-- C6: Under the module precondition that the input is a live strong
reference (strong count at least 1), both debug assertions in
`try_borrow_mut` hold, the success-path decrement goes exactly from 1 to 0
without underflow, and the error `OtherStrongReferencesExist` is returned
exactly when the count exceeds 1 (never for a count of 0). -/
theorem try_borrow_mut_assert_safety {T : Type} (s : RcState T)
    (h : 1 ≤ s.strong) :
    (try_borrow_mut s).assertsHold = true ∧
    ((try_borrow_mut s).res = Except.ok () →
      s.strong = 1 ∧ (try_borrow_mut s).state.strong + 1 = s.strong) ∧
    ((try_borrow_mut s).res = Except.error BorrowError.otherStrongReferencesExist ↔
      1 < s.strong) := by
  by_cases h1 : s.strong > 1
  · refine ⟨?_, ?_, ?_⟩
    · unfold try_borrow_mut
      simp [h1]
      omega
    · rw [try_borrow_mut_res_eq]
      simp [h1]
    · rw [try_borrow_mut_res_eq]
      simp [h1]
  · have he : s.strong = 1 := by omega
    refine ⟨?_, ?_, ?_⟩
    · unfold try_borrow_mut
      simp [he]
    · rw [try_borrow_mut_state_eq]
      simp [he]
    · rw [try_borrow_mut_res_eq]
      simp [he]

theorem try_borrow_mut_assert_safety_witness :
    1 ≤ (RcState.mk 1 0 64 (3 : Nat)).strong ∧
    ((try_borrow_mut (RcState.mk 1 0 64 (3 : Nat))).assertsHold = true ∧
     ((try_borrow_mut (RcState.mk 1 0 64 (3 : Nat))).res = Except.ok () →
       (RcState.mk 1 0 64 (3 : Nat)).strong = 1 ∧
       (try_borrow_mut (RcState.mk 1 0 64 (3 : Nat))).state.strong + 1 =
         (RcState.mk 1 0 64 (3 : Nat)).strong) ∧
     ((try_borrow_mut (RcState.mk 1 0 64 (3 : Nat))).res =
        Except.error BorrowError.otherStrongReferencesExist ↔
       1 < (RcState.mk 1 0 64 (3 : Nat)).strong)) :=
  ⟨by decide, try_borrow_mut_assert_safety _ (by decide)⟩

/-- C7: Frame conditions: `try_borrow_mut`, the handle's dereferences and
writes, and the handle's drop leave the weak count, the pointee address and
(apart from explicit writes) the pointee value unchanged; the only
control-block field written is the strong count, going 1 to 0 at creation and
0 to 1 at release. -/
theorem frame_effects {T : Type} (s : RcState T) (v : T) :
    (try_borrow_mut s).state.weak = s.weak ∧
    (try_borrow_mut s).state.ptr = s.ptr ∧
    (try_borrow_mut s).state.value = s.value ∧
    (s.strong = 1 → (try_borrow_mut s).state.strong = 0) ∧
    (writeThroughHandle s v).weak = s.weak ∧
    (writeThroughHandle s v).ptr = s.ptr ∧
    (writeThroughHandle s v).strong = s.strong ∧
    derefAddr s = rcAsPtr s ∧
    derefMutAddr s = rcAsPtr s ∧
    (handleDrop s).state.weak = s.weak ∧
    (handleDrop s).state.ptr = s.ptr ∧
    (handleDrop s).state.value = s.value ∧
    (s.strong = 0 → (handleDrop s).state.strong = 1) := by
  rw [try_borrow_mut_state_eq]
  refine ⟨?_, ?_, ?_, ?_, rfl, rfl, rfl, rfl, rfl, rfl, rfl, rfl, ?_⟩
  · split <;> rfl
  · split <;> rfl
  · split <;> rfl
  · intro h
    simp [h]
  · intro h
    simp [handleDrop, h]

theorem frame_effects_witness :
    (try_borrow_mut (RcState.mk 1 4 64 (5 : Nat))).state.weak =
      (RcState.mk 1 4 64 (5 : Nat)).weak ∧
    (try_borrow_mut (RcState.mk 1 4 64 (5 : Nat))).state.ptr =
      (RcState.mk 1 4 64 (5 : Nat)).ptr ∧
    (try_borrow_mut (RcState.mk 1 4 64 (5 : Nat))).state.value =
      (RcState.mk 1 4 64 (5 : Nat)).value ∧
    ((RcState.mk 1 4 64 (5 : Nat)).strong = 1 →
      (try_borrow_mut (RcState.mk 1 4 64 (5 : Nat))).state.strong = 0) ∧
    (writeThroughHandle (RcState.mk 1 4 64 (5 : Nat)) 9).weak =
      (RcState.mk 1 4 64 (5 : Nat)).weak ∧
    (writeThroughHandle (RcState.mk 1 4 64 (5 : Nat)) 9).ptr =
      (RcState.mk 1 4 64 (5 : Nat)).ptr ∧
    (writeThroughHandle (RcState.mk 1 4 64 (5 : Nat)) 9).strong =
      (RcState.mk 1 4 64 (5 : Nat)).strong ∧
    derefAddr (RcState.mk 1 4 64 (5 : Nat)) = rcAsPtr (RcState.mk 1 4 64 (5 : Nat)) ∧
    derefMutAddr (RcState.mk 1 4 64 (5 : Nat)) = rcAsPtr (RcState.mk 1 4 64 (5 : Nat)) ∧
    (handleDrop (RcState.mk 1 4 64 (5 : Nat))).state.weak =
      (RcState.mk 1 4 64 (5 : Nat)).weak ∧
    (handleDrop (RcState.mk 1 4 64 (5 : Nat))).state.ptr =
      (RcState.mk 1 4 64 (5 : Nat)).ptr ∧
    (handleDrop (RcState.mk 1 4 64 (5 : Nat))).state.value =
      (RcState.mk 1 4 64 (5 : Nat)).value ∧
    ((RcState.mk 1 4 64 (5 : Nat)).strong = 0 →
      (handleDrop (RcState.mk 1 4 64 (5 : Nat))).state.strong = 1) :=
  frame_effects (RcState.mk 1 4 64 (5 : Nat)) 9

/-- C8: `borrow_mut` applies the same eligibility rule as `try_borrow_mut`:
it returns the same handle when the input is the sole strong reference, and
panics (modelled as `none`) exactly when `try_borrow_mut` would return the
error. -/
theorem borrow_mut_eligibility {T : Type} (s : RcState T) :
    (s.strong = 1 → borrow_mut s = some (try_borrow_mut s).state) ∧
    (2 ≤ s.strong → borrow_mut s = none) ∧
    (borrow_mut s = none ↔
      (try_borrow_mut s).res = Except.error BorrowError.otherStrongReferencesExist) := by
  by_cases h1 : s.strong > 1
  · refine ⟨by omega, ?_, ?_⟩
    · intro _
      unfold borrow_mut
      rw [try_borrow_mut_res_eq]
      simp [h1]
    · unfold borrow_mut
      rw [try_borrow_mut_res_eq]
      simp [h1]
  · refine ⟨?_, by omega, ?_⟩
    · intro _
      unfold borrow_mut
      rw [try_borrow_mut_res_eq]
      simp [h1]
    · unfold borrow_mut
      rw [try_borrow_mut_res_eq]
      simp [h1]

theorem borrow_mut_eligibility_witness :
    ((RcState.mk 1 0 64 (5 : Nat)).strong = 1 →
      borrow_mut (RcState.mk 1 0 64 (5 : Nat)) =
        some (try_borrow_mut (RcState.mk 1 0 64 (5 : Nat))).state) ∧
    (2 ≤ (RcState.mk 1 0 64 (5 : Nat)).strong →
      borrow_mut (RcState.mk 1 0 64 (5 : Nat)) = none) ∧
    (borrow_mut (RcState.mk 1 0 64 (5 : Nat)) = none ↔
      (try_borrow_mut (RcState.mk 1 0 64 (5 : Nat))).res =
        Except.error BorrowError.otherStrongReferencesExist) :=
  borrow_mut_eligibility (RcState.mk 1 0 64 (5 : Nat))

/-- C9: The handle's drop increments the strong count by one rather than
writing the constant 1 (so the restore-to-1 guarantee holds exactly when the
count is still 0 at release), and for an `Rc` with strong count 1,
`try_borrow_mut` followed by release is a round trip: the count ends at 1. -/
theorem handle_drop_increment_round_trip {T : Type} (s t : RcState T)
    (h : s.strong = 1) :
    (handleDrop t).state.strong = t.strong + 1 ∧
    ((handleDrop t).state.strong = 1 ↔ t.strong = 0) ∧
    (handleDrop (try_borrow_mut s).state).state.strong = 1 := by
  refine ⟨rfl, by simp [handleDrop], ?_⟩
  rw [try_borrow_mut_state_eq]
  simp [h, handleDrop]

theorem handle_drop_increment_round_trip_witness :
    (RcState.mk 1 0 64 (5 : Nat)).strong = 1 ∧
    ((handleDrop (RcState.mk 6 0 64 (5 : Nat))).state.strong =
       (RcState.mk 6 0 64 (5 : Nat)).strong + 1 ∧
     ((handleDrop (RcState.mk 6 0 64 (5 : Nat))).state.strong = 1 ↔
       (RcState.mk 6 0 64 (5 : Nat)).strong = 0) ∧
     (handleDrop (try_borrow_mut (RcState.mk 1 0 64 (5 : Nat))).state).state.strong = 1) :=
  ⟨rfl, handle_drop_increment_round_trip (RcState.mk 1 0 64 (5 : Nat))
    (RcState.mk 6 0 64 (5 : Nat)) rfl⟩

/-- C10: Formatting the handle with Debug or Display delegates to the pointee
type's own implementation: the output equals formatting the pointee value
itself. -/
theorem handle_fmt_delegates {T : Type} (dbg disp : T → String) (s : RcState T) :
    handleFmtDebug dbg s = dbg s.value ∧ handleFmtDisplay disp s = disp s.value :=
  ⟨rfl, rfl⟩

end RcBorrowMut
